import Mathlib

/-!
Verification of the pytket-offline-renderer sources.

The repository has two source files, both named `__init__.py`, under
`pytket/extensions/offline_display` and `pytket/circuit/offline_display`.
Each builds a jinja2 `PrefixLoader` with two namespaces (`html` and `js`),
where each namespace is a `ChoiceLoader` trying a local override directory
first and falling back to a shared base loader.  The extensions variant
additionally defines `OfflineRenderer.render_circuit_as_html`, which wraps
the base renderer with a jupyter-inline display path built around a
temporary file.

Template names are embedded as lists of characters, so that jinja2's
prefix splitting (`template.split(delimiter, 1)` with delimiter `/`) can
be stated and proved structurally.  A directory of templates (a "tier")
is an association list from names to contents.  The filesystem used by
the renderer is likewise an association list from file names to contents.
Fallible steps of the Python code (the base render call, the deferred
IPython import, the temp-file write, the display call, the deletion) are
embedded as explicit outcomes, and the renderer returns the final result,
the final filesystem and the list of observable events in order.
-/

/-- A template name, as jinja2 sees it: the raw string of characters. -/
abbrev TemplateName := List Char

/-- A directory of templates: an association of names to file contents.
Embeds what a `FileSystemLoader` search path contains. -/
abbrev Tier := List (TemplateName × String)

/-- Lookup of a template name in a directory: first entry with that name. -/
def tierLookup : Tier → TemplateName → Option String
  | [], _ => none
  | (k, v) :: rest, n => if k = n then some v else tierLookup rest n

/-- A jinja2 loader, reduced to its observable behaviour: a template name
either resolves to content or raises `TemplateNotFound` (here `none`). -/
abbrev Loader := TemplateName → Option String

/-- `FileSystemLoader(searchpath=dir)`: resolve names in the directory. -/
def fileSystemLoader (dir : Tier) : Loader := fun n => tierLookup dir n

/-- `ChoiceLoader(loaders)`: try each loader in order and return the first
successful match; `TemplateNotFound` only if every loader misses. -/
def choiceLoader : List Loader → Loader
  | [], _ => none
  | l :: rest, n =>
    match l n with
    | some c => some c
    | none => choiceLoader rest n

/-- `template.split(delimiter, 1)` for delimiter `/`: split a name at the
first slash into the namespace part and the rest; `none` when the name
holds no slash (jinja2 then raises `TemplateNotFound`). -/
def splitFirst : TemplateName → Option (TemplateName × TemplateName)
  | [] => none
  | c :: cs =>
    if c = '/' then some ([], cs)
    else
      match splitFirst cs with
      | none => none
      | some (p, r) => some (c :: p, r)

/-- Lookup of a namespace key in the mapping of a `PrefixLoader`. -/
def assocLoader : List (TemplateName × Loader) → TemplateName → Option Loader
  | [], _ => none
  | (k, l) :: rest, p => if k = p then some l else assocLoader rest p

/-- `PrefixLoader(mapping)`: split the requested name at the first slash,
find the loader registered for the namespace, and delegate the rest of the
name to it; any miss is `TemplateNotFound`. -/
def prefixLoader (mapping : List (TemplateName × Loader)) : Loader :=
  fun template =>
    match splitFirst template with
    | none => none
    | some (p, rest) =>
      match assocLoader mapping p with
      | none => none
      | some l => l rest

/-- The `html` namespace key of the source's loader. -/
def htmlNs : TemplateName := ['h', 't', 'm', 'l']

/-- The `js` namespace key of the source's loader. -/
def jsNs : TemplateName := ['j', 's']

/-- The mapping passed to `PrefixLoader` in both source files: `html` maps
to a choice of the local `static` directory then the shared `html_loader`,
and `js` maps to a choice of the local `dist` directory then the shared
`js_loader`. -/
def loaderMapping (staticDir distDir : Tier) (html_loader js_loader : Loader) :
    List (TemplateName × Loader) :=
  [(htmlNs, choiceLoader [fileSystemLoader staticDir, html_loader]),
   (jsNs, choiceLoader [fileSystemLoader distDir, js_loader])]

/-- The resolved `loader` of the source: the `PrefixLoader` over the
two-namespace mapping. -/
def loader (staticDir distDir : Tier) (html_loader js_loader : Loader) : Loader :=
  prefixLoader (loaderMapping staticDir distDir html_loader js_loader)

/-- Splitting `p ++ / ++ n` at the first slash recovers `(p, n)` when the
namespace part `p` itself holds no slash. -/
theorem splitFirst_append (p n : TemplateName) (hp : '/' ∉ p) :
    splitFirst (p ++ '/' :: n) = some (p, n) := by
  induction p with
  | nil => simp [splitFirst]
  | cons c cs ih =>
    have hc : c ≠ '/' := fun h => hp (h ▸ List.mem_cons_self c cs)
    have hcs : '/' ∉ cs := fun h => hp (List.mem_cons_of_mem c h)
    simp [splitFirst, hc, ih hcs]

/-- Resolving a name qualified by a namespace key present in the mapping
delegates the rest of the name to the registered loader. -/
theorem prefixLoader_hit (mapping : List (TemplateName × Loader))
    (p n : TemplateName) (l : Loader) (hp : '/' ∉ p)
    (hm : assocLoader mapping p = some l) :
    prefixLoader mapping (p ++ '/' :: n) = l n := by
  simp [prefixLoader, splitFirst_append p n hp, hm]

/-- A lookup qualified by the `html` namespace resolves through the choice
of the local `static` directory and the shared `html_loader`. -/
theorem loader_html_eq (staticDir distDir : Tier)
    (html_loader js_loader : Loader) (name : TemplateName) :
    loader staticDir distDir html_loader js_loader (htmlNs ++ '/' :: name) =
      choiceLoader [fileSystemLoader staticDir, html_loader] name := by
  have hp : '/' ∉ htmlNs := by decide
  rw [loader, prefixLoader_hit _ _ _ _ hp]
  simp [loaderMapping, assocLoader]

/-- A lookup qualified by the `js` namespace resolves through the choice
of the local `dist` directory and the shared `js_loader`. -/
theorem loader_js_eq (staticDir distDir : Tier)
    (html_loader js_loader : Loader) (name : TemplateName) :
    loader staticDir distDir html_loader js_loader (jsNs ++ '/' :: name) =
      choiceLoader [fileSystemLoader distDir, js_loader] name := by
  have hp : '/' ∉ jsNs := by decide
  rw [loader, prefixLoader_hit _ _ _ _ hp]
  simp [loaderMapping, assocLoader, htmlNs, jsNs]

/-- Claim C2: for every (namespace, name) pair present in both the local
override tier and the shared base tier, a template lookup through the
resolved loader returns the override-tier content and never the base-tier
content.  Stated for both namespaces: when the local `static` (resp.
`dist`) directory holds the name, the loader returns its content, whatever
the base loaders would return. -/
theorem override_precedence (staticDir distDir : Tier)
    (html_loader js_loader : Loader) (name : TemplateName)
    (cH cJ bH bJ : String)
    (hH : tierLookup staticDir name = some cH)
    (hJ : tierLookup distDir name = some cJ)
    (hbH : html_loader name = some bH)
    (hbJ : js_loader name = some bJ) :
    loader staticDir distDir html_loader js_loader (htmlNs ++ '/' :: name) = some cH ∧
    loader staticDir distDir html_loader js_loader (jsNs ++ '/' :: name) = some cJ := by
  constructor
  · rw [loader_html_eq]
    simp [choiceLoader, fileSystemLoader, hH]
  · rw [loader_js_eq]
    simp [choiceLoader, fileSystemLoader, hJ]

/-- Witness for C2 at a concrete instance: both tiers hold the name `a`,
and the loader returns the override contents for both namespaces. -/
theorem override_precedence_witness :
    tierLookup [(['a'], "ovH")] ['a'] = some "ovH" ∧
    tierLookup [(['a'], "ovJ")] ['a'] = some "ovJ" ∧
    ((fun _ => some "baseH") : Loader) ['a'] = some "baseH" ∧
    ((fun _ => some "baseJ") : Loader) ['a'] = some "baseJ" ∧
    (loader [(['a'], "ovH")] [(['a'], "ovJ")] (fun _ => some "baseH")
      (fun _ => some "baseJ") (htmlNs ++ '/' :: ['a']) = some "ovH" ∧
     loader [(['a'], "ovH")] [(['a'], "ovJ")] (fun _ => some "baseH")
      (fun _ => some "baseJ") (jsNs ++ '/' :: ['a']) = some "ovJ") :=
  ⟨rfl, rfl, rfl, rfl,
   override_precedence [(['a'], "ovH")] [(['a'], "ovJ")]
     (fun _ => some "baseH") (fun _ => some "baseJ") ['a']
     "ovH" "ovJ" "baseH" "baseJ" rfl rfl rfl rfl⟩

/-- Claim C3: for every (namespace, name) pair present only in the base
tier (absent from the local override directory), a lookup through the
resolved loader succeeds and returns content identical to a direct lookup
in the base tier. -/
theorem fallback_correctness (staticDir distDir : Tier)
    (html_loader js_loader : Loader) (name : TemplateName)
    (bH bJ : String)
    (hH : tierLookup staticDir name = none)
    (hJ : tierLookup distDir name = none)
    (hbH : html_loader name = some bH)
    (hbJ : js_loader name = some bJ) :
    loader staticDir distDir html_loader js_loader (htmlNs ++ '/' :: name) =
      html_loader name ∧
    loader staticDir distDir html_loader js_loader (jsNs ++ '/' :: name) =
      js_loader name := by
  constructor
  · rw [loader_html_eq]
    simp [choiceLoader, fileSystemLoader, hH, hbH]
  · rw [loader_js_eq]
    simp [choiceLoader, fileSystemLoader, hJ, hbJ]

/-- Witness for C3 at a concrete instance: the overrides are empty, the
base loaders hold the name `a`, and the loader returns the base content. -/
theorem fallback_correctness_witness :
    tierLookup [] ['a'] = none ∧
    tierLookup [] ['a'] = none ∧
    ((fun _ => some "baseH") : Loader) ['a'] = some "baseH" ∧
    ((fun _ => some "baseJ") : Loader) ['a'] = some "baseJ" ∧
    (loader [] [] (fun _ => some "baseH") (fun _ => some "baseJ")
      (htmlNs ++ '/' :: ['a']) = (fun _ => some "baseH" : Loader) ['a'] ∧
     loader [] [] (fun _ => some "baseH") (fun _ => some "baseJ")
      (jsNs ++ '/' :: ['a']) = (fun _ => some "baseJ" : Loader) ['a']) :=
  ⟨rfl, rfl, rfl, rfl,
   fallback_correctness [] [] (fun _ => some "baseH") (fun _ => some "baseJ")
     ['a'] "baseH" "baseJ" rfl rfl rfl rfl⟩

/-- Claim C4: for every (namespace, name) pair absent from both the
override tier and the base tier, a template lookup fails with a not-found
condition (`none`): no partial or corrupt result is returned, and the
single evaluation performs no retry. -/
theorem missing_name_failure (staticDir distDir : Tier)
    (html_loader js_loader : Loader) (name : TemplateName)
    (hH : tierLookup staticDir name = none)
    (hJ : tierLookup distDir name = none)
    (hbH : html_loader name = none)
    (hbJ : js_loader name = none) :
    loader staticDir distDir html_loader js_loader (htmlNs ++ '/' :: name) = none ∧
    loader staticDir distDir html_loader js_loader (jsNs ++ '/' :: name) = none := by
  constructor
  · rw [loader_html_eq]
    simp [choiceLoader, fileSystemLoader, hH, hbH]
  · rw [loader_js_eq]
    simp [choiceLoader, fileSystemLoader, hJ, hbJ]

/-- Witness for C4 at a concrete instance: no tier holds the name `a`, and
the loader fails for both namespaces. -/
theorem missing_name_failure_witness :
    tierLookup [] ['a'] = none ∧
    tierLookup [] ['a'] = none ∧
    ((fun _ => none) : Loader) ['a'] = none ∧
    ((fun _ => none) : Loader) ['a'] = none ∧
    (loader [] [] (fun _ => none) (fun _ => none)
      (htmlNs ++ '/' :: ['a']) = none ∧
     loader [] [] (fun _ => none) (fun _ => none)
      (jsNs ++ '/' :: ['a']) = none) :=
  ⟨rfl, rfl, rfl, rfl,
   missing_name_failure [] [] (fun _ => none) (fun _ => none) ['a']
     rfl rfl rfl rfl⟩

/-- Claim C10: the resolved loader defines exactly two namespaces, `html`
and `js`, and for every lookup whose namespace part is anything other than
`html` or `js`, resolution fails regardless of the name, with no fallback
to any tier. -/
theorem only_two_namespaces (staticDir distDir : Tier)
    (html_loader js_loader : Loader) (p name : TemplateName)
    (hslash : '/' ∉ p) (hh : p ≠ htmlNs) (hj : p ≠ jsNs) :
    (loaderMapping staticDir distDir html_loader js_loader).map Prod.fst =
      [htmlNs, jsNs] ∧
    loader staticDir distDir html_loader js_loader (p ++ '/' :: name) = none := by
  refine ⟨rfl, ?_⟩
  have hm : assocLoader (loaderMapping staticDir distDir html_loader js_loader) p =
      none := by
    simp [loaderMapping, assocLoader, hh.symm, hj.symm]
  simp [loader, prefixLoader, splitFirst_append p name hslash, hm]

/-- Witness for C10 at a concrete instance: the namespace `css` resolves
to no loader, so the lookup fails even though every tier holds the name. -/
theorem only_two_namespaces_witness :
    ('/' ∉ (['c', 's', 's'] : TemplateName)) ∧
    (['c', 's', 's'] : TemplateName) ≠ htmlNs ∧
    (['c', 's', 's'] : TemplateName) ≠ jsNs ∧
    ((loaderMapping [(['a'], "o")] [(['a'], "o")] (fun _ => some "b")
       (fun _ => some "b")).map Prod.fst = [htmlNs, jsNs] ∧
     loader [(['a'], "o")] [(['a'], "o")] (fun _ => some "b") (fun _ => some "b")
       (['c', 's', 's'] ++ '/' :: ['a']) = none) :=
  ⟨by decide, by decide, by decide,
   only_two_namespaces [(['a'], "o")] [(['a'], "o")] (fun _ => some "b")
     (fun _ => some "b") ['c', 's', 's'] ['a'] (by decide) (by decide) (by decide)⟩

/-!
## The offline renderer

`OfflineRenderer.render_circuit_as_html` in
`pytket/extensions/offline_display/__init__.py` first calls the base
renderer with `jupyter=False`.  When the `jupyter` flag is set it then
imports the IPython display capability, creates a named temporary file in
the working directory, writes the HTML, closes the handle, and inside a
`try` block displays an iframe referencing the file and returns `None`;
the `finally` block sleeps 5 time units and calls `os.remove` on the
file.  When the flag is unset it returns the HTML string.

The embedding makes every fallible step explicit: the base render call
returns `Except`, and booleans choose whether the deferred import, the
temp-file write and the display call succeed.  A further boolean models
the file being removed by an external agent while the display is pending,
which is the one way `os.remove` in the `finally` block can fail.  Python
`finally` semantics are embedded faithfully: when `os.remove` raises, its
exception replaces both a pending return value and a pending exception
from the `try` block.
-/

/-- The exceptions the embedded steps can raise. -/
inductive Err
  | renderErr
  | importErr
  | writeErr
  | displayErr
  | removeErr
deriving DecidableEq, Repr

/-- Observable events of one call, in program order. -/
inductive Event
  | create (name : String)
  | write (name : String) (content : String)
  | display (iframeSrc : String)
  | sleep (units : Nat)
  | remove (name : String)
deriving DecidableEq, Repr

/-- The working directory: an association of file names to contents. -/
abbrev FS := List (String × String)

/-- Content of a file, `none` when the file does not exist. -/
def fsLookup : FS → String → Option String
  | [], _ => none
  | (k, v) :: rest, n => if k = n then some v else fsLookup rest n

/-- Create or overwrite a file with the given content. -/
def fsSet : FS → String → String → FS
  | [], n, c => [(n, c)]
  | (k, v) :: rest, n, c =>
    if k = n then (k, c) :: rest else (k, v) :: fsSet rest n c

/-- Delete a file (no effect when it is absent). -/
def fsRemove : FS → String → FS
  | [], _ => []
  | (k, v) :: rest, n =>
    if k = n then fsRemove rest n else (k, v) :: fsRemove rest n

/-- Outcome of one call: the returned value or the propagated exception,
the final state of the working directory, and the events in order. -/
structure RunResult where
  result : Except Err (Option String)
  fs : FS
  events : List Event
deriving Repr

/-- `OfflineRenderer.render_circuit_as_html(circuit, jupyter)`, embedded
from `pytket/extensions/offline_display/__init__.py`.  `base` is the
inherited `CircuitRenderer.render_circuit_as_html`, always invoked with
the jupyter/inline flag forced to `False`; `importOk`, `writeOk` and
`displayOk` choose whether the deferred IPython import, `fp.write` and
`display(HTML(...))` succeed; `externallyRemoved` makes the temporary
file vanish before the `finally` block runs, in which case `os.remove`
raises.  `tmpName` is the name `tempfile.NamedTemporaryFile` picks. -/
def OfflineRenderer.render_circuit_as_html
    {Circuit : Type}
    (base : Circuit → Bool → Except Err String)
    (importOk writeOk displayOk externallyRemoved : Bool)
    (circuit : Circuit) (jupyter : Bool)
    (fs0 : FS) (tmpName : String) : RunResult :=
  match base circuit false with
  | .error e => ⟨.error e, fs0, []⟩
  | .ok html =>
    if jupyter then
      if importOk = false then
        -- the deferred `from IPython.display import HTML, display` raised
        ⟨.error .importErr, fs0, []⟩
      else
        -- tempfile.NamedTemporaryFile(mode="w", suffix=".html",
        --                             delete=False, dir=os.getcwd())
        let fs1 := fsSet fs0 tmpName ""
        if writeOk = false then
          -- fp.write raised: the try/finally block has not started yet,
          -- so the exception propagates with the file left in place
          ⟨.error .writeErr, fs1, [.create tmpName]⟩
        else
          let fs2 := fsSet fs1 tmpName html
          -- fp.close(); try: display(HTML(iframe)); return None
          -- finally: time.sleep(5); os.remove(fp.name)
          let fs3 := if externallyRemoved then fsRemove fs2 tmpName else fs2
          let fs4 := fsRemove fs3 tmpName
          let result : Except Err (Option String) :=
            if (fsLookup fs3 tmpName).isNone then .error .removeErr
            else if displayOk then .ok none
            else .error .displayErr
          ⟨result, fs4,
           [.create tmpName, .write tmpName html] ++
             (if displayOk then [.display tmpName] else []) ++
             [.sleep 5, .remove tmpName]⟩
    else
      ⟨.ok (some html), fs0, []⟩

/-- Modelled from the spec: the base variant
`CircuitRenderer.render_circuit_as_html` lives in `pytket.circuit.display`
and is not under this repository's sources.  Per the spec it always
returns the HTML string, performs no display side effect and creates no
file. -/
def CircuitRenderer.render_circuit_as_html
    {Circuit : Type}
    (base : Circuit → Bool → Except Err String)
    (circuit : Circuit) (jupyter : Bool) (fs0 : FS) : RunResult :=
  match base circuit jupyter with
  | .error e => ⟨.error e, fs0, []⟩
  | .ok html => ⟨.ok (some html), fs0, []⟩

/-- Modelled from the spec: `render_as_html` (spec 4.2.1) of the base
renderer, not under this repository's sources.  Per the spec it converts
the circuit to an intermediate structure, renders the template resolved
through the render environment, and is a pure transformation with no side
effects; it fails when conversion or template resolution fails. -/
def render_as_html {Circuit IR : Type}
    (convert : Circuit → Option IR)
    (renderTemplate : String → IR → Bool → String)
    (ld : Loader) (mainTemplate : TemplateName)
    (circuit : Circuit) (inline : Bool) : Except Err String :=
  match convert circuit with
  | none => .error .renderErr
  | some ir =>
    match ld mainTemplate with
    | none => .error .renderErr
    | some tpl => .ok (renderTemplate tpl ir inline)

/-- Writing a file and looking it up returns the written content. -/
theorem fsLookup_fsSet (fs : FS) (n c : String) :
    fsLookup (fsSet fs n c) n = some c := by
  induction fs with
  | nil => simp [fsSet, fsLookup]
  | cons kv rest ih =>
    obtain ⟨k, v⟩ := kv
    by_cases h : k = n <;> simp [fsSet, fsLookup, h, ih]

/-- Deleting after a write deletes at least as much as deleting alone. -/
theorem fsRemove_fsSet (fs : FS) (n c : String) :
    fsRemove (fsSet fs n c) n = fsRemove fs n := by
  induction fs with
  | nil => simp [fsSet, fsRemove]
  | cons kv rest ih =>
    obtain ⟨k, v⟩ := kv
    by_cases h : k = n <;> simp [fsSet, fsRemove, h, ih]

/-- Deleting an absent file leaves the directory unchanged. -/
theorem fsRemove_eq_self (fs : FS) (n : String) (h : fsLookup fs n = none) :
    fsRemove fs n = fs := by
  induction fs with
  | nil => simp [fsRemove]
  | cons kv rest ih =>
    obtain ⟨k, v⟩ := kv
    by_cases hk : k = n
    · simp [fsLookup, hk] at h
    · simp [fsLookup, hk] at h
      simp [fsRemove, hk, ih h]

/-- A deleted file is gone. -/
theorem fsLookup_fsRemove (fs : FS) (n : String) :
    fsLookup (fsRemove fs n) n = none := by
  induction fs with
  | nil => simp [fsRemove, fsLookup]
  | cons kv rest ih =>
    obtain ⟨k, v⟩ := kv
    by_cases h : k = n <;> simp [fsRemove, fsLookup, h, ih]

/-- Normal jupyter-path run: when the base render, the import and the
write succeed and nobody removes the temporary file from outside, the call
creates the file, writes the HTML, sleeps and removes the file, returning
`None` on a successful display and propagating the display error
otherwise. -/
theorem run_jupyter_ok {Circuit : Type}
    (base : Circuit → Bool → Except Err String) (displayOk : Bool)
    (circuit : Circuit) (fs0 : FS) (tmpName html : String)
    (hbase : base circuit false = .ok html)
    (hfresh : fsLookup fs0 tmpName = none) :
    OfflineRenderer.render_circuit_as_html base true true displayOk false
        circuit true fs0 tmpName =
      ⟨if displayOk then .ok none else .error .displayErr, fs0,
       [.create tmpName, .write tmpName html] ++
         (if displayOk then [.display tmpName] else []) ++
         [.sleep 5, .remove tmpName]⟩ := by
  simp only [OfflineRenderer.render_circuit_as_html, hbase]
  simp [fsLookup_fsSet, fsRemove_fsSet, fsRemove_eq_self fs0 tmpName hfresh]

/-- Claim C5: for every circuit, the offline-variant
`render_circuit_as_html` returns no value (`None`) when the jupyter flag
is set, and when the jupyter flag is not set it returns the HTML string
and creates no file, behaving identically to the base variant. -/
theorem jupyter_flag_return_value {Circuit : Type}
    (base : Circuit → Bool → Except Err String)
    (circuit : Circuit) (fs0 : FS) (tmpName html : String)
    (hbase : base circuit false = .ok html)
    (hfresh : fsLookup fs0 tmpName = none) :
    (OfflineRenderer.render_circuit_as_html base true true true false
        circuit true fs0 tmpName).result = .ok none ∧
    (∀ importOk writeOk displayOk externallyRemoved : Bool,
      OfflineRenderer.render_circuit_as_html base importOk writeOk displayOk
          externallyRemoved circuit false fs0 tmpName =
        CircuitRenderer.render_circuit_as_html base circuit false fs0) := by
  constructor
  · rw [run_jupyter_ok base true circuit fs0 tmpName html hbase hfresh]
    rfl
  · intro importOk writeOk displayOk externallyRemoved
    simp [OfflineRenderer.render_circuit_as_html,
      CircuitRenderer.render_circuit_as_html, hbase]

/-- Witness for C5 at a concrete run: base render yields `"H"`, the
working directory is empty, and the call returns `None` with the jupyter
flag and the base behaviour without it. -/
theorem jupyter_flag_return_value_witness :
    ((fun _ _ => Except.ok "H") : Nat → Bool → Except Err String) 0 false =
      .ok "H" ∧
    fsLookup [] "tmp.html" = none ∧
    (OfflineRenderer.render_circuit_as_html
        (fun _ _ => Except.ok "H") true true true false (0 : Nat) true []
        "tmp.html").result = .ok none ∧
    OfflineRenderer.render_circuit_as_html
        (fun _ _ => Except.ok "H") true true true true (0 : Nat) false []
        "tmp.html" =
      CircuitRenderer.render_circuit_as_html
        (fun _ _ => Except.ok "H") (0 : Nat) false [] :=
  ⟨rfl, rfl,
   (jupyter_flag_return_value (fun _ _ => Except.ok "H") 0 [] "tmp.html" "H"
     rfl rfl).1,
   (jupyter_flag_return_value (fun _ _ => Except.ok "H") 0 [] "tmp.html" "H"
     rfl rfl).2 true true true true⟩

/-- Whether an event is the creation of a file. -/
def Event.isCreate : Event → Bool
  | .create _ => true
  | _ => false

/-- Claim C6: for every circuit, the jupyter-inline path creates exactly
one new file during the call; that file's content equals the HTML string
that rendering the same circuit with the inline flag off produces (the
jupyter path forces the flag off in the base call); and the file no longer
exists once the call has fully returned. -/
theorem temp_file_lifecycle {Circuit : Type}
    (base : Circuit → Bool → Except Err String)
    (circuit : Circuit) (fs0 : FS) (tmpName html : String)
    (hbase : base circuit false = .ok html)
    (hfresh : fsLookup fs0 tmpName = none) :
    (OfflineRenderer.render_circuit_as_html base true true true false
        circuit true fs0 tmpName).events =
      [.create tmpName, .write tmpName html, .display tmpName,
       .sleep 5, .remove tmpName] ∧
    (OfflineRenderer.render_circuit_as_html base true true true false
        circuit true fs0 tmpName).events.filter Event.isCreate =
      [.create tmpName] ∧
    fsLookup (OfflineRenderer.render_circuit_as_html base true true true false
        circuit true fs0 tmpName).fs tmpName = none ∧
    (OfflineRenderer.render_circuit_as_html base true true true false
        circuit true fs0 tmpName).fs = fs0 := by
  rw [run_jupyter_ok base true circuit fs0 tmpName html hbase hfresh]
  refine ⟨rfl, ?_, hfresh, rfl⟩
  simp [Event.isCreate]

/-- Witness for C6 at a concrete run: base render yields `"H"`, the
working directory is empty, and the call creates, fills and finally
removes exactly the file `t.html`. -/
theorem temp_file_lifecycle_witness :
    ((fun _ _ => Except.ok "H") : Nat → Bool → Except Err String) 0 false =
      .ok "H" ∧
    fsLookup [] "t.html" = none ∧
    ((OfflineRenderer.render_circuit_as_html
        (fun _ _ => Except.ok "H") true true true false (0 : Nat) true []
        "t.html").events =
      [.create "t.html", .write "t.html" "H", .display "t.html",
       .sleep 5, .remove "t.html"] ∧
     (OfflineRenderer.render_circuit_as_html
        (fun _ _ => Except.ok "H") true true true false (0 : Nat) true []
        "t.html").events.filter Event.isCreate = [.create "t.html"] ∧
     fsLookup (OfflineRenderer.render_circuit_as_html
        (fun _ _ => Except.ok "H") true true true false (0 : Nat) true []
        "t.html").fs "t.html" = none ∧
     (OfflineRenderer.render_circuit_as_html
        (fun _ _ => Except.ok "H") true true true false (0 : Nat) true []
        "t.html").fs = []) :=
  ⟨rfl, rfl,
   temp_file_lifecycle (fun _ _ => Except.ok "H") 0 [] "t.html" "H" rfl rfl⟩

/-- Claim C9: the notebook display capability import is deferred to the
point of use inside the jupyter branch, so a call with the jupyter flag
unset succeeds whatever the import outcome would be, and a jupyter call
outside a notebook fails with the capability's own import error,
untrapped, before any file activity. -/
theorem deferred_capability_import {Circuit : Type}
    (base : Circuit → Bool → Except Err String)
    (circuit : Circuit) (fs0 : FS) (tmpName html : String)
    (hbase : base circuit false = .ok html) :
    (∀ importOk writeOk displayOk externallyRemoved : Bool,
      (OfflineRenderer.render_circuit_as_html base importOk writeOk displayOk
          externallyRemoved circuit false fs0 tmpName).result =
        .ok (some html)) ∧
    (∀ writeOk displayOk externallyRemoved : Bool,
      OfflineRenderer.render_circuit_as_html base false writeOk displayOk
          externallyRemoved circuit true fs0 tmpName =
        ⟨.error .importErr, fs0, []⟩) := by
  constructor
  · intro importOk writeOk displayOk externallyRemoved
    simp [OfflineRenderer.render_circuit_as_html, hbase]
  · intro writeOk displayOk externallyRemoved
    simp [OfflineRenderer.render_circuit_as_html, hbase]

/-- Witness for C9 at a concrete run: with the jupyter flag unset the call
returns the HTML whatever the import would do, and with the flag set a
failed import surfaces as the import error with no file activity. -/
theorem deferred_capability_import_witness :
    ((fun _ _ => Except.ok "H") : Nat → Bool → Except Err String) 0 false =
      .ok "H" ∧
    (OfflineRenderer.render_circuit_as_html
        (fun _ _ => Except.ok "H") false true true false (0 : Nat) false []
        "t.html").result = .ok (some "H") ∧
    OfflineRenderer.render_circuit_as_html
        (fun _ _ => Except.ok "H") false true true false (0 : Nat) true []
        "t.html" = ⟨.error .importErr, [], []⟩ :=
  ⟨rfl,
   (deferred_capability_import (fun _ _ => Except.ok "H") 0 [] "t.html" "H"
      rfl).1 false true true false,
   (deferred_capability_import (fun _ _ => Except.ok "H") 0 [] "t.html" "H"
      rfl).2 true true false⟩

/-- Claim C8: rendering the same circuit twice with the same render
environment and the same inline-mode flag produces byte-identical HTML
output. -/
theorem render_idempotence {Circuit IR : Type}
    (convert : Circuit → Option IR)
    (renderTemplate : String → IR → Bool → String)
    (ld : Loader) (mainTemplate : TemplateName)
    (circuit : Circuit) (inline : Bool) (h1 h2 : String)
    (e1 : render_as_html convert renderTemplate ld mainTemplate circuit
            inline = .ok h1)
    (e2 : render_as_html convert renderTemplate ld mainTemplate circuit
            inline = .ok h2) :
    h1 = h2 := by
  rw [e1] at e2
  exact Except.ok.inj e2

/-- Witness for C8 at a concrete render environment: the resolved loader
over an empty override and a one-template base, rendered twice. -/
theorem render_idempotence_witness :
    render_as_html (fun n : Nat => some n) (fun t _ _ => t)
      (loader [] [] (fun _ => some "TPL") (fun _ => none))
      (htmlNs ++ '/' :: ['m']) 0 false = .ok "TPL" ∧
    "TPL" = "TPL" :=
  ⟨rfl,
   render_idempotence (fun n : Nat => some n) (fun t _ _ => t)
     (loader [] [] (fun _ => some "TPL") (fun _ => none))
     (htmlNs ++ '/' :: ['m']) 0 false "TPL" "TPL" rfl rfl⟩

/-- Counterexample to claim C1: in a run where HTML generation succeeds
but the temp-file write raises, the exception propagates with no
delay-then-delete cleanup, and the temporary file is left in the working
directory.  The `try`/`finally` block of the source begins only after
`fp.write` and `fp.close`, so a write failure is outside the guaranteed
cleanup. -/
theorem cleanup_coverage_counterexample :
    (OfflineRenderer.render_circuit_as_html
        (fun _ _ => Except.ok "H") true false true false (0 : Nat) true []
        "t.html").result = .error .writeErr ∧
    fsLookup (OfflineRenderer.render_circuit_as_html
        (fun _ _ => Except.ok "H") true false true false (0 : Nat) true []
        "t.html").fs "t.html" = some "" ∧
    Event.sleep 5 ∉ (OfflineRenderer.render_circuit_as_html
        (fun _ _ => Except.ok "H") true false true false (0 : Nat) true []
        "t.html").events ∧
    Event.remove "t.html" ∉ (OfflineRenderer.render_circuit_as_html
        (fun _ _ => Except.ok "H") true false true false (0 : Nat) true []
        "t.html").events :=
  ⟨rfl, rfl, by decide, by decide⟩

/-- Claim C1 (amended): the delay-then-delete cleanup is guaranteed only
around the display call.  Once the temp-file write has succeeded, the
cleanup runs whether the display call succeeds or raises, and the
temporary file is removed before a display exception propagates to the
caller; but an exception during the temp-file write propagates without
the cleanup running and leaves the file in the working directory (an
exception during HTML generation occurs before any file is created). -/
theorem cleanup_covers_display_call {Circuit : Type}
    (base : Circuit → Bool → Except Err String)
    (circuit : Circuit) (fs0 : FS) (tmpName html : String)
    (hbase : base circuit false = .ok html)
    (hfresh : fsLookup fs0 tmpName = none) :
    (∀ displayOk : Bool,
      Event.sleep 5 ∈ (OfflineRenderer.render_circuit_as_html base true true
          displayOk false circuit true fs0 tmpName).events ∧
      Event.remove tmpName ∈ (OfflineRenderer.render_circuit_as_html base
          true true displayOk false circuit true fs0 tmpName).events ∧
      fsLookup (OfflineRenderer.render_circuit_as_html base true true
          displayOk false circuit true fs0 tmpName).fs tmpName = none ∧
      (displayOk = false →
        (OfflineRenderer.render_circuit_as_html base true true displayOk
            false circuit true fs0 tmpName).result = .error .displayErr)) ∧
    ((OfflineRenderer.render_circuit_as_html base true false true false
        circuit true fs0 tmpName).result = .error .writeErr ∧
     Event.sleep 5 ∉ (OfflineRenderer.render_circuit_as_html base true false
        true false circuit true fs0 tmpName).events ∧
     fsLookup (OfflineRenderer.render_circuit_as_html base true false true
        false circuit true fs0 tmpName).fs tmpName = some "") := by
  constructor
  · intro displayOk
    rw [run_jupyter_ok base displayOk circuit fs0 tmpName html hbase hfresh]
    refine ⟨by cases displayOk <;> simp, by cases displayOk <;> simp,
      hfresh, ?_⟩
    intro h
    subst h
    rfl
  · simp [OfflineRenderer.render_circuit_as_html, hbase, fsLookup_fsSet]

/-- Witness for the amended C1 at a concrete run with a failing display
call: the cleanup events occur, the file is gone, and the display error
propagates. -/
theorem cleanup_covers_display_call_witness :
    ((fun _ _ => Except.ok "H") : Nat → Bool → Except Err String) 0 false =
      .ok "H" ∧
    fsLookup [] "t.html" = none ∧
    (Event.sleep 5 ∈ (OfflineRenderer.render_circuit_as_html
        (fun _ _ => Except.ok "H") true true false false (0 : Nat) true []
        "t.html").events ∧
     Event.remove "t.html" ∈ (OfflineRenderer.render_circuit_as_html
        (fun _ _ => Except.ok "H") true true false false (0 : Nat) true []
        "t.html").events ∧
     fsLookup (OfflineRenderer.render_circuit_as_html
        (fun _ _ => Except.ok "H") true true false false (0 : Nat) true []
        "t.html").fs "t.html" = none ∧
     (false = false →
       (OfflineRenderer.render_circuit_as_html
          (fun _ _ => Except.ok "H") true true false false (0 : Nat) true []
          "t.html").result = .error .displayErr)) :=
  ⟨rfl, rfl,
   (cleanup_covers_display_call (fun _ _ => Except.ok "H") 0 [] "t.html" "H"
      rfl rfl).1 false⟩

/-- Counterexample to claim C7: when the temporary file has already been
removed by an external agent, `os.remove` in the `finally` block raises
and that error propagates to the caller even though the display
succeeded; and when the display also raised, the deletion error replaces
(masks) the display error. -/
theorem deletion_failure_counterexample :
    (OfflineRenderer.render_circuit_as_html
        (fun _ _ => Except.ok "H") true true true true (0 : Nat) true []
        "t.html").result = .error .removeErr ∧
    Event.display "t.html" ∈ (OfflineRenderer.render_circuit_as_html
        (fun _ _ => Except.ok "H") true true true true (0 : Nat) true []
        "t.html").events ∧
    (OfflineRenderer.render_circuit_as_html
        (fun _ _ => Except.ok "H") true true false true (0 : Nat) true []
        "t.html").result = .error .removeErr :=
  ⟨rfl, by decide, rfl⟩

/-- Claim C7 (amended): when the temporary file still exists at cleanup
time, deletion succeeds and neither masks the display outcome nor raises
after a successful display — the call returns `None` on success and
propagates exactly the display error on failure, restoring the working
directory.  But when the deletion step itself fails because the file was
already removed, the resulting error propagates to the caller, replacing
an original display error and surfacing even after a successful
display. -/
theorem deletion_outcome {Circuit : Type}
    (base : Circuit → Bool → Except Err String)
    (circuit : Circuit) (fs0 : FS) (tmpName html : String)
    (hbase : base circuit false = .ok html)
    (hfresh : fsLookup fs0 tmpName = none) :
    (∀ displayOk : Bool,
      (OfflineRenderer.render_circuit_as_html base true true displayOk false
          circuit true fs0 tmpName).result =
        (if displayOk then .ok none else .error .displayErr) ∧
      (OfflineRenderer.render_circuit_as_html base true true displayOk false
          circuit true fs0 tmpName).fs = fs0) ∧
    (∀ displayOk : Bool,
      (OfflineRenderer.render_circuit_as_html base true true displayOk true
          circuit true fs0 tmpName).result = .error .removeErr) := by
  constructor
  · intro displayOk
    rw [run_jupyter_ok base displayOk circuit fs0 tmpName html hbase hfresh]
    exact ⟨rfl, rfl⟩
  · intro displayOk
    simp [OfflineRenderer.render_circuit_as_html, hbase, fsLookup_fsRemove]

/-- Witness for the amended C7 at a concrete run: with the file intact
the call returns `None` and restores the directory; with the file
externally removed the deletion error propagates. -/
theorem deletion_outcome_witness :
    ((fun _ _ => Except.ok "H") : Nat → Bool → Except Err String) 0 false =
      .ok "H" ∧
    fsLookup [] "t.html" = none ∧
    ((OfflineRenderer.render_circuit_as_html
        (fun _ _ => Except.ok "H") true true true false (0 : Nat) true []
        "t.html").result = (if true then .ok none else .error .displayErr) ∧
     (OfflineRenderer.render_circuit_as_html
        (fun _ _ => Except.ok "H") true true true false (0 : Nat) true []
        "t.html").fs = []) ∧
    (OfflineRenderer.render_circuit_as_html
        (fun _ _ => Except.ok "H") true true true true (0 : Nat) true []
        "t.html").result = .error .removeErr :=
  ⟨rfl, rfl,
   (deletion_outcome (fun _ _ => Except.ok "H") 0 [] "t.html" "H"
      rfl rfl).1 true,
   (deletion_outcome (fun _ _ => Except.ok "H") 0 [] "t.html" "H"
      rfl rfl).2 true⟩
